import Mathlib

/-!
Shallow embedding of the computational core of the darktable
"linear saturation" module (src/iop/linearsaturation.c).

The embedded code is the `process` function (the per-pixel saturation
loop, lines 239-268 of the source).  Machine floats are modelled as real
numbers.  The norm dispatcher `dt_rgb_norm` and its selector enum
`dt_iop_rgb_norms_t` are declared in common/rgb_norms.h, which is not
among the reviewed sources, so they are modelled from the spec
(section 4.1 of the design document); likewise the error enumeration
comes from the spec (section 7).
-/

namespace LinearSaturation

/-- A pixel: four floating-point channels R, G, B, A, modelled as reals. -/
@[ext]
structure Pixel where
  r : ℝ
  g : ℝ
  b : ℝ
  a : ℝ

/-- Access to the three color channels by index, mirroring the loop index
c = 0, 1, 2 of the source. -/
def Pixel.channel (p : Pixel) : Fin 3 → ℝ
  | 0 => p.r
  | 1 => p.g
  | 2 => p.b

/-- Modelled from the spec: the color context needed by the Luminance-Y norm
is a 3x3 transform matrix from working RGB to a reference space. -/
abbrev Matrix3 := Fin 3 → Fin 3 → ℝ

/-- Modelled from the spec: the norm selector enum `dt_iop_rgb_norms_t`
(declared in common/rgb_norms.h, outside the reviewed sources).  The spec
enumerates Luminance-Y, Average, Vector-Norm and Power-Norm. -/
inductive dt_iop_rgb_norms_t where
  | luminanceY
  | average
  | vectorNorm
  | powerNorm
deriving DecidableEq

/-- Modelled from the spec: the failure conditions of the filter. -/
inductive FilterError where
  | DimensionMismatch
  | InvalidColorContext
deriving DecidableEq

/-- The parameter struct `dt_iop_linearsaturation_params_t` of the source:
a saturation factor and a norm selection. -/
structure dt_iop_linearsaturation_params_t where
  saturation_factor : ℝ
  luma_method : dt_iop_rgb_norms_t

/-- Region of interest `dt_iop_roi_t`; `process` reads only the width and
height fields, which is all we model. -/
structure dt_iop_roi_t where
  width : ℕ
  height : ℕ
deriving DecidableEq

open Classical

/-- Modelled from the spec: `dt_rgb_norm` (declared in common/rgb_norms.h,
outside the reviewed sources).  Per spec section 4.1: Luminance-Y takes the
luminance channel (row 1) of the matrix-transformed pixel and requires the
color context, failing with InvalidColorContext when the matrix is absent
(spec section 7 forbids a silent fallback); Average is (R+G+B)/3;
Vector-Norm is sqrt(R^2+G^2+B^2); Power-Norm is (R^3+G^3+B^3)/(R^2+G^2+B^2)
with the division guarded: the result is defined as 0 when R=G=B=0. -/
noncomputable def dt_rgb_norm (p : Pixel) :
    dt_iop_rgb_norms_t → Option Matrix3 → Except FilterError ℝ
  | .luminanceY, some m =>
      Except.ok (m 1 0 * p.r + m 1 1 * p.g + m 1 2 * p.b)
  | .luminanceY, none => Except.error FilterError.InvalidColorContext
  | .average, _ => Except.ok ((p.r + p.g + p.b) / 3)
  | .vectorNorm, _ => Except.ok (Real.sqrt (p.r ^ 2 + p.g ^ 2 + p.b ^ 2))
  | .powerNorm, _ =>
      Except.ok (if p.r = 0 ∧ p.g = 0 ∧ p.b = 0 then 0
        else (p.r ^ 3 + p.g ^ 3 + p.b ^ 3) / (p.r ^ 2 + p.g ^ 2 + p.b ^ 2))

/-- The per-pixel write-out of `process` (source lines 256-266): each color
channel c is set to luma + saturation_factor * (in[c] - luma), and the alpha
channel is copied verbatim. -/
noncomputable def scale_channels (saturation_factor luma : ℝ) (p : Pixel) : Pixel where
  r := luma + saturation_factor * (p.r - luma)
  g := luma + saturation_factor * (p.g - luma)
  b := luma + saturation_factor * (p.b - luma)
  a := p.a

/-- One iteration of the loop body of `process` (source lines 253-266):
compute the luma of the input pixel, then write the scaled output pixel.
A failure of the (spec-modelled) norm propagates. -/
noncomputable def process_pixel (d : dt_iop_linearsaturation_params_t)
    (wp : Option Matrix3) (p : Pixel) : Except FilterError Pixel :=
  match dt_rgb_norm p d.luma_method wp with
  | Except.error e => Except.error e
  | Except.ok luma => Except.ok (scale_channels d.saturation_factor luma p)

/-- The loop of `process` (source lines 251-267) over the listed input
pixels, in order; the first failure aborts the whole call. -/
noncomputable def process_list (d : dt_iop_linearsaturation_params_t)
    (wp : Option Matrix3) : List Pixel → Except FilterError (List Pixel)
  | [] => Except.ok []
  | p :: ps =>
    match process_pixel d wp p with
    | Except.error e => Except.error e
    | Except.ok q =>
      match process_list d wp ps with
      | Except.error e => Except.error e
      | Except.ok qs => Except.ok (q :: qs)

/-- The `process` entry point (source lines 239-268).  `input` is the input
buffer memory, indexed by pixel index k; the loop runs over
k = 0 .. roi_in.width * roi_in.height - 1, exactly as in the source, which
reads only roi_in and never inspects roi_out. -/
noncomputable def process (d : dt_iop_linearsaturation_params_t)
    (wp : Option Matrix3) (input : ℕ → Pixel)
    (roi_in roi_out : dt_iop_roi_t) : Except FilterError (List Pixel) :=
  process_list d wp ((List.range (roi_in.width * roi_in.height)).map input)

/-- Any failure of the spec-modelled norm is an InvalidColorContext, and it
occurs exactly for the Luminance-Y mode without a matrix. -/
theorem dt_rgb_norm_error_invalid {p : Pixel} {m : dt_iop_rgb_norms_t}
    {wp : Option Matrix3} {e : FilterError}
    (h : dt_rgb_norm p m wp = Except.error e) :
    e = FilterError.InvalidColorContext ∧ m = dt_iop_rgb_norms_t.luminanceY ∧ wp = none := by
  cases m <;> cases wp <;> simp [dt_rgb_norm] at h <;> simp [h.symm]

/-- Channel-indexed reading of the per-pixel write-out. -/
theorem scale_channels_channel (f l : ℝ) (p : Pixel) (c : Fin 3) :
    (scale_channels f l p).channel c = l + f * (p.channel c - l) := by
  fin_cases c <;> rfl

/-- With factor 1 the per-pixel write-out is the identity. -/
theorem scale_channels_one (l : ℝ) (p : Pixel) : scale_channels 1 l p = p := by
  ext <;> simp [scale_channels]

/-- With factor 0 the per-pixel write-out collapses the color channels to the luma. -/
theorem scale_channels_zero (l : ℝ) (p : Pixel) :
    scale_channels 0 l p = ⟨l, l, l, p.a⟩ := by
  ext <;> simp [scale_channels]

/-- Characterization of a successful run of the loop: the output has one
pixel per input pixel, and the pixel at index k is the scaled version of the
input pixel at index k, using that pixel's own norm value. -/
theorem process_list_ok_spec {d : dt_iop_linearsaturation_params_t} {wp : Option Matrix3} :
    ∀ {l out : List Pixel}, process_list d wp l = Except.ok out →
      out.length = l.length ∧
      ∀ (k : ℕ) (p : Pixel), l[k]? = some p →
        ∃ luma, dt_rgb_norm p d.luma_method wp = Except.ok luma ∧
          out[k]? = some (scale_channels d.saturation_factor luma p) := by
  intro l
  induction l with
  | nil =>
    intro out h
    simp [process_list] at h
    subst h
    simp
  | cons p ps ih =>
    intro out h
    simp only [process_list] at h
    cases hq : process_pixel d wp p with
    | error e => rw [hq] at h; exact absurd h (by simp)
    | ok q =>
      rw [hq] at h
      cases hqs : process_list d wp ps with
      | error e => rw [hqs] at h; exact absurd h (by simp)
      | ok qs =>
        rw [hqs] at h
        simp only [Except.ok.injEq] at h
        subst h
        obtain ⟨hlen, hpt⟩ := ih hqs
        refine ⟨by simp [hlen], ?_⟩
        intro k x hk
        cases k with
        | zero =>
          simp only [List.getElem?_cons_zero, Option.some.injEq] at hk
          subst hk
          unfold process_pixel at hq
          cases hn : dt_rgb_norm p d.luma_method wp with
          | error e => rw [hn] at hq; exact absurd hq (by simp)
          | ok luma =>
            rw [hn] at hq
            simp only [Except.ok.injEq] at hq
            subst hq
            exact ⟨luma, rfl, by simp⟩
        | succ k =>
          simp only [List.getElem?_cons_succ] at hk ⊢
          exact hpt k x hk

/-- The loop never produces a DimensionMismatch failure: its only error
source is the norm, whose only failure is InvalidColorContext. -/
theorem process_list_ne_dim (d : dt_iop_linearsaturation_params_t)
    (wp : Option Matrix3) :
    ∀ l : List Pixel, process_list d wp l ≠ Except.error FilterError.DimensionMismatch := by
  intro l
  induction l with
  | nil => simp [process_list]
  | cons p ps ih =>
    simp only [process_list]
    cases hq : process_pixel d wp p with
    | error e =>
      unfold process_pixel at hq
      cases hn : dt_rgb_norm p d.luma_method wp with
      | error e2 =>
        rw [hn] at hq
        simp only [Except.error.injEq] at hq
        subst hq
        have := (dt_rgb_norm_error_invalid hn).1
        simp [this]
      | ok luma => rw [hn] at hq; exact absurd hq (by simp)
    | ok q =>
      cases hqs : process_list d wp ps with
      | error e =>
        intro hcontra
        simp only [Except.error.injEq] at hcontra
        exact ih (hcontra ▸ hqs)
      | ok qs => simp

/-- Reading the k-th pixel the loop sees is reading the input memory at k. -/
theorem range_map_getElem (input : ℕ → Pixel) {n k : ℕ} (hk : k < n) :
    ((List.range n).map input)[k]? = some (input k) := by
  simp [List.getElem?_map, List.getElem?_range, hk]

/-- Claim C1: for every input buffer, every norm mode, every color context
and every real saturation factor (values outside [0, 2] included, applied
unchanged), each output pixel's three color channels satisfy
out[k][c] = luma + saturation_factor * (in[k][c] - luma), where luma is
the norm of the same-index input pixel; each output pixel is determined by
the same-index input pixel alone. -/
theorem process_per_pixel_formula
    (d : dt_iop_linearsaturation_params_t) (wp : Option Matrix3) (input : ℕ → Pixel)
    (roi_in roi_out : dt_iop_roi_t) (out : List Pixel)
    (h : process d wp input roi_in roi_out = Except.ok out)
    (k : ℕ) (hk : k < roi_in.width * roi_in.height) :
    ∃ luma, dt_rgb_norm (input k) d.luma_method wp = Except.ok luma ∧
      ∃ pout, out[k]? = some pout ∧
        ∀ c : Fin 3, pout.channel c =
          luma + d.saturation_factor * ((input k).channel c - luma) := by
  unfold process at h
  obtain ⟨-, hpt⟩ := process_list_ok_spec h
  obtain ⟨luma, hn, hout⟩ := hpt k (input k) (range_map_getElem input hk)
  exact ⟨luma, hn, _, hout, fun c => scale_channels_channel _ _ _ c⟩

/-- Witness for C1: a concrete 1x1 run in Average mode with factor 2. -/
theorem process_per_pixel_formula_witness :
    process ⟨2, dt_iop_rgb_norms_t.average⟩ none (fun _ => ⟨0, 0, 0, 0⟩) ⟨1, 1⟩ ⟨1, 1⟩ =
        Except.ok [⟨0, 0, 0, 0⟩] ∧
    0 < 1 * 1 ∧
    (∃ luma, dt_rgb_norm ⟨0, 0, 0, 0⟩ dt_iop_rgb_norms_t.average none = Except.ok luma ∧
      ∃ pout, ([(⟨0, 0, 0, 0⟩ : Pixel)])[0]? = some pout ∧
        ∀ c : Fin 3, pout.channel c = luma + 2 * (Pixel.channel ⟨0, 0, 0, 0⟩ c - luma)) := by
  have hproc : process ⟨2, dt_iop_rgb_norms_t.average⟩ none (fun _ => ⟨0, 0, 0, 0⟩) ⟨1, 1⟩ ⟨1, 1⟩ =
      Except.ok [⟨0, 0, 0, 0⟩] := by
    simp [process, process_list, process_pixel, dt_rgb_norm, scale_channels]
  exact ⟨hproc, by decide, process_per_pixel_formula _ _ _ _ _ _ hproc 0 (by decide)⟩

/-- Claim C2 counterexample: with an output ROI whose shape differs from the
input ROI (1x1 input, 2x2 output), the filter does not fail with
DimensionMismatch; it returns a complete output computed from the input ROI. -/
theorem no_dimension_check_cex :
    process ⟨1, dt_iop_rgb_norms_t.average⟩ none (fun _ => ⟨0, 0, 0, 0⟩) ⟨1, 1⟩ ⟨2, 2⟩ =
      Except.ok [⟨0, 0, 0, 0⟩] ∧
    process ⟨1, dt_iop_rgb_norms_t.average⟩ none (fun _ => ⟨0, 0, 0, 0⟩) ⟨1, 1⟩ ⟨2, 2⟩ ≠
      Except.error FilterError.DimensionMismatch := by
  constructor <;> simp [process, process_list, process_pixel, dt_rgb_norm, scale_channels]

/-- Claim C2 (amended): the filter performs no shape validation at all: the
result is identical for any two output ROIs (the output is computed from the
input ROI alone, source line 250), and a DimensionMismatch failure is never
produced. -/
theorem process_ignores_output_roi
    (d : dt_iop_linearsaturation_params_t) (wp : Option Matrix3)
    (input : ℕ → Pixel) (roi_in ro₁ ro₂ : dt_iop_roi_t) :
    process d wp input roi_in ro₁ = process d wp input roi_in ro₂ ∧
    process d wp input roi_in ro₁ ≠ Except.error FilterError.DimensionMismatch :=
  ⟨rfl, process_list_ne_dim d wp _⟩

/-- Claim C3: requesting the Luminance-Y norm without a transform matrix
makes the filter fail with InvalidColorContext on any nonempty image; no
silent fallback to a different norm happens. -/
theorem luminance_without_profile_fails
    (d : dt_iop_linearsaturation_params_t) (input : ℕ → Pixel)
    (roi_in roi_out : dt_iop_roi_t)
    (hm : d.luma_method = dt_iop_rgb_norms_t.luminanceY)
    (hn : 0 < roi_in.width * roi_in.height) :
    process d none input roi_in roi_out = Except.error FilterError.InvalidColorContext := by
  unfold process
  obtain ⟨m, hm2⟩ := Nat.exists_eq_succ_of_ne_zero (Nat.pos_iff_ne_zero.mp hn)
  rw [hm2, List.range_succ_eq_map]
  simp [process_list, process_pixel, hm, dt_rgb_norm]

/-- Witness for C3: a concrete 1x1 run in Luminance-Y mode without a matrix. -/
theorem luminance_without_profile_fails_witness :
    (⟨1, dt_iop_rgb_norms_t.luminanceY⟩ : dt_iop_linearsaturation_params_t).luma_method =
      dt_iop_rgb_norms_t.luminanceY ∧
    0 < 1 * 1 ∧
    process ⟨1, dt_iop_rgb_norms_t.luminanceY⟩ none (fun _ => ⟨0, 0, 0, 0⟩) ⟨1, 1⟩ ⟨1, 1⟩ =
      Except.error FilterError.InvalidColorContext :=
  ⟨rfl, by decide, luminance_without_profile_fails _ _ _ _ rfl (by decide)⟩

/-- Claim C4: for every input, factor and mode, each output pixel's alpha
channel equals the alpha channel of the same-index input pixel. -/
theorem alpha_passthrough
    (d : dt_iop_linearsaturation_params_t) (wp : Option Matrix3) (input : ℕ → Pixel)
    (roi_in roi_out : dt_iop_roi_t) (out : List Pixel)
    (h : process d wp input roi_in roi_out = Except.ok out)
    (k : ℕ) (hk : k < roi_in.width * roi_in.height) :
    ∃ pout, out[k]? = some pout ∧ pout.a = (input k).a := by
  unfold process at h
  obtain ⟨-, hpt⟩ := process_list_ok_spec h
  obtain ⟨luma, -, hout⟩ := hpt k (input k) (range_map_getElem input hk)
  exact ⟨_, hout, rfl⟩

/-- Witness for C4: a concrete 1x1 run with a nonzero alpha value. -/
theorem alpha_passthrough_witness :
    process ⟨2, dt_iop_rgb_norms_t.average⟩ none (fun _ => ⟨0, 0, 0, 7⟩) ⟨1, 1⟩ ⟨1, 1⟩ =
        Except.ok [⟨0, 0, 0, 7⟩] ∧
    0 < 1 * 1 ∧
    (∃ pout, ([(⟨0, 0, 0, 7⟩ : Pixel)])[0]? = some pout ∧
      pout.a = (Pixel.mk 0 0 0 7).a) := by
  have hproc : process ⟨2, dt_iop_rgb_norms_t.average⟩ none (fun _ => ⟨0, 0, 0, 7⟩) ⟨1, 1⟩ ⟨1, 1⟩ =
      Except.ok [⟨0, 0, 0, 7⟩] := by
    simp [process, process_list, process_pixel, dt_rgb_norm, scale_channels]
  exact ⟨hproc, by decide, alpha_passthrough _ _ _ _ _ _ hproc 0 (by decide)⟩

/-- Claim C5: with saturation factor 1 the filter is the identity: whatever
buffer it produces equals the sequence of input pixels it read, alpha
included, for every norm mode. -/
theorem factor_one_identity
    (d : dt_iop_linearsaturation_params_t) (wp : Option Matrix3) (input : ℕ → Pixel)
    (roi_in roi_out : dt_iop_roi_t) (out : List Pixel)
    (hf : d.saturation_factor = 1)
    (h : process d wp input roi_in roi_out = Except.ok out) :
    out = (List.range (roi_in.width * roi_in.height)).map input := by
  unfold process at h
  obtain ⟨hlen, hpt⟩ := process_list_ok_spec h
  have hn0 : out.length = roi_in.width * roi_in.height := by simpa using hlen
  apply List.ext_getElem?
  intro k
  by_cases hk : k < roi_in.width * roi_in.height
  · obtain ⟨luma, -, hout⟩ := hpt k (input k) (range_map_getElem input hk)
    rw [hout, range_map_getElem input hk, hf, scale_channels_one]
  · have h1 : out.length ≤ k := by rw [hn0]; exact Nat.le_of_not_lt hk
    have h2 : ((List.range (roi_in.width * roi_in.height)).map input).length ≤ k := by
      simpa using Nat.le_of_not_lt hk
    rw [List.getElem?_eq_none h1, List.getElem?_eq_none h2]

/-- Witness for C5: a concrete 1x1 run with factor 1 in Average mode. -/
theorem factor_one_identity_witness :
    (⟨1, dt_iop_rgb_norms_t.average⟩ : dt_iop_linearsaturation_params_t).saturation_factor = 1 ∧
    process ⟨1, dt_iop_rgb_norms_t.average⟩ none (fun _ => ⟨0, 0, 0, 0⟩) ⟨1, 1⟩ ⟨1, 1⟩ =
        Except.ok [⟨0, 0, 0, 0⟩] ∧
    [(⟨0, 0, 0, 0⟩ : Pixel)] = (List.range (1 * 1)).map (fun _ => (⟨0, 0, 0, 0⟩ : Pixel)) := by
  have hproc : process ⟨1, dt_iop_rgb_norms_t.average⟩ none (fun _ => ⟨0, 0, 0, 0⟩) ⟨1, 1⟩ ⟨1, 1⟩ =
      Except.ok [⟨0, 0, 0, 0⟩] := by
    simp [process, process_list, process_pixel, dt_rgb_norm, scale_channels]
  exact ⟨rfl, hproc, factor_one_identity _ _ _ _ _ _ rfl hproc⟩

/-- Claim C6: with saturation factor 0 every output pixel has its three
color channels equal to the luma of the same-index input pixel, with the
alpha channel unchanged, for every norm mode. -/
theorem factor_zero_desaturation
    (d : dt_iop_linearsaturation_params_t) (wp : Option Matrix3) (input : ℕ → Pixel)
    (roi_in roi_out : dt_iop_roi_t) (out : List Pixel)
    (hf : d.saturation_factor = 0)
    (h : process d wp input roi_in roi_out = Except.ok out)
    (k : ℕ) (hk : k < roi_in.width * roi_in.height) :
    ∃ luma, dt_rgb_norm (input k) d.luma_method wp = Except.ok luma ∧
      out[k]? = some ⟨luma, luma, luma, (input k).a⟩ := by
  unfold process at h
  obtain ⟨-, hpt⟩ := process_list_ok_spec h
  obtain ⟨luma, hn, hout⟩ := hpt k (input k) (range_map_getElem input hk)
  rw [hf, scale_channels_zero] at hout
  exact ⟨luma, hn, hout⟩

/-- Witness for C6: a concrete 1x1 run with factor 0 in Average mode. -/
theorem factor_zero_desaturation_witness :
    (⟨0, dt_iop_rgb_norms_t.average⟩ : dt_iop_linearsaturation_params_t).saturation_factor = 0 ∧
    process ⟨0, dt_iop_rgb_norms_t.average⟩ none (fun _ => ⟨0, 0, 0, 5⟩) ⟨1, 1⟩ ⟨1, 1⟩ =
        Except.ok [⟨0, 0, 0, 5⟩] ∧
    0 < 1 * 1 ∧
    (∃ luma, dt_rgb_norm ⟨0, 0, 0, 5⟩ dt_iop_rgb_norms_t.average none = Except.ok luma ∧
      ([(⟨0, 0, 0, 5⟩ : Pixel)])[0]? = some ⟨luma, luma, luma, (Pixel.mk 0 0 0 5).a⟩) := by
  have hproc : process ⟨0, dt_iop_rgb_norms_t.average⟩ none (fun _ => ⟨0, 0, 0, 5⟩) ⟨1, 1⟩ ⟨1, 1⟩ =
      Except.ok [⟨0, 0, 0, 5⟩] := by
    simp [process, process_list, process_pixel, dt_rgb_norm, scale_channels]
  exact ⟨rfl, hproc, by decide, factor_zero_desaturation _ _ _ _ _ _ rfl hproc 0 (by decide)⟩

/-- Claim C7: in Power-Norm mode the norm of the pixel (0, 0, 0) is 0 (the
division is guarded), and the corresponding output pixel is (0, 0, 0) with
the alpha unchanged: no division-by-zero result reaches the output. -/
theorem power_norm_zero_guard
    (f : ℝ) (wp : Option Matrix3) (input : ℕ → Pixel)
    (roi_in roi_out : dt_iop_roi_t) (out : List Pixel) (k : ℕ) (av : ℝ)
    (h : process ⟨f, dt_iop_rgb_norms_t.powerNorm⟩ wp input roi_in roi_out = Except.ok out)
    (hk : k < roi_in.width * roi_in.height)
    (hp : input k = ⟨0, 0, 0, av⟩) :
    dt_rgb_norm (input k) dt_iop_rgb_norms_t.powerNorm wp = Except.ok 0 ∧
    out[k]? = some ⟨0, 0, 0, av⟩ := by
  have hnorm : dt_rgb_norm (input k) dt_iop_rgb_norms_t.powerNorm wp = Except.ok 0 := by
    rw [hp]; cases wp <;> simp [dt_rgb_norm]
  refine ⟨hnorm, ?_⟩
  unfold process at h
  obtain ⟨-, hpt⟩ := process_list_ok_spec h
  obtain ⟨luma, hn, hout⟩ := hpt k (input k) (range_map_getElem input hk)
  have hluma : luma = 0 := Except.ok.inj (hn.symm.trans hnorm)
  subst hluma
  rw [hout, hp]
  have : scale_channels f 0 (⟨0, 0, 0, av⟩ : Pixel) = ⟨0, 0, 0, av⟩ := by
    ext <;> simp [scale_channels]
  rw [this]

/-- Witness for C7: a concrete 1x1 run in Power-Norm mode on the zero pixel. -/
theorem power_norm_zero_guard_witness :
    process ⟨2, dt_iop_rgb_norms_t.powerNorm⟩ none (fun _ => ⟨0, 0, 0, 1⟩) ⟨1, 1⟩ ⟨1, 1⟩ =
        Except.ok [⟨0, 0, 0, 1⟩] ∧
    0 < 1 * 1 ∧
    (fun _ : ℕ => (⟨0, 0, 0, 1⟩ : Pixel)) 0 = ⟨0, 0, 0, 1⟩ ∧
    (dt_rgb_norm ⟨0, 0, 0, 1⟩ dt_iop_rgb_norms_t.powerNorm none = Except.ok 0 ∧
      ([(⟨0, 0, 0, 1⟩ : Pixel)])[0]? = some ⟨0, 0, 0, 1⟩) := by
  have hproc : process ⟨2, dt_iop_rgb_norms_t.powerNorm⟩ none (fun _ => ⟨0, 0, 0, 1⟩) ⟨1, 1⟩ ⟨1, 1⟩ =
      Except.ok [⟨0, 0, 0, 1⟩] := by
    simp [process, process_list, process_pixel, dt_rgb_norm, scale_channels]
  exact ⟨hproc, by decide, rfl, power_norm_zero_guard _ _ _ _ _ _ _ _ hproc (by decide) rfl⟩

/-- Claim C8: the filter is deterministic: two invocations on identical
parameters, color context, input buffer and ROIs yield identical outputs.
The embedding is a pure function of exactly these five inputs, which mirrors
the source: process reads nothing but its arguments and writes nothing but
the output buffer. -/
theorem process_deterministic
    (d₁ d₂ : dt_iop_linearsaturation_params_t) (wp₁ wp₂ : Option Matrix3)
    (input₁ input₂ : ℕ → Pixel) (ri₁ ri₂ ro₁ ro₂ : dt_iop_roi_t)
    (hd : d₁ = d₂) (hwp : wp₁ = wp₂) (hin : input₁ = input₂)
    (hri : ri₁ = ri₂) (hro : ro₁ = ro₂) :
    process d₁ wp₁ input₁ ri₁ ro₁ = process d₂ wp₂ input₂ ri₂ ro₂ := by
  subst hd hwp hin hri hro
  rfl

/-- Witness for C8: two identical concrete invocations. -/
theorem process_deterministic_witness :
    (⟨1, dt_iop_rgb_norms_t.average⟩ : dt_iop_linearsaturation_params_t) =
      ⟨1, dt_iop_rgb_norms_t.average⟩ ∧
    (none : Option Matrix3) = none ∧
    (fun _ : ℕ => (⟨0, 0, 0, 0⟩ : Pixel)) = (fun _ : ℕ => (⟨0, 0, 0, 0⟩ : Pixel)) ∧
    (⟨1, 1⟩ : dt_iop_roi_t) = ⟨1, 1⟩ ∧
    process ⟨1, dt_iop_rgb_norms_t.average⟩ none (fun _ => ⟨0, 0, 0, 0⟩) ⟨1, 1⟩ ⟨1, 1⟩ =
      process ⟨1, dt_iop_rgb_norms_t.average⟩ none (fun _ => ⟨0, 0, 0, 0⟩) ⟨1, 1⟩ ⟨1, 1⟩ :=
  ⟨rfl, rfl, rfl, rfl,
    process_deterministic _ _ _ _ _ _ _ _ _ _ rfl rfl rfl rfl rfl⟩

/-- Claim C9: on a zero-sized image (width * height = 0) the filter returns
an empty output buffer and no error, for every mode and context. -/
theorem zero_size_empty
    (d : dt_iop_linearsaturation_params_t) (wp : Option Matrix3) (input : ℕ → Pixel)
    (roi_in roi_out : dt_iop_roi_t)
    (h : roi_in.width * roi_in.height = 0) :
    process d wp input roi_in roi_out = Except.ok [] := by
  unfold process
  rw [h]
  rfl

/-- Witness for C9: a concrete 0x3 image. -/
theorem zero_size_empty_witness :
    0 * 3 = 0 ∧
    process ⟨1, dt_iop_rgb_norms_t.average⟩ none (fun _ => ⟨0, 0, 0, 0⟩) ⟨0, 3⟩ ⟨0, 3⟩ =
      Except.ok [] :=
  ⟨rfl, zero_size_empty _ _ _ _ _ rfl⟩

/-- Claim C10: the filter never clamps to a gamut: factor 2 (inside the
documented range) on the pixel RGB = (1, 0, 0) in Average mode produces a
negative green channel (-1/3) and a red channel above 1 (5/3). -/
theorem no_gamut_clamp :
    process ⟨2, dt_iop_rgb_norms_t.average⟩ none (fun _ => ⟨1, 0, 0, 1⟩) ⟨1, 1⟩ ⟨1, 1⟩ =
      Except.ok [⟨5 / 3, -1 / 3, -1 / 3, 1⟩] ∧
    (-1 : ℝ) / 3 < 0 ∧ (1 : ℝ) < 5 / 3 := by
  refine ⟨?_, by norm_num, by norm_num⟩
  norm_num [process, process_list, process_pixel, dt_rgb_norm, scale_channels]

end LinearSaturation
